import Mathlib

/-!
Verification of the favorability scoring engine of the Sakuya_bot repository.

The Python sources embedded here:
  * `src/plugins/favorability_plugin/plugin.py` — the scoring engine:
    the durable favorability store operations (`get_favorability`,
    `get_favorability_record`, `set_favorability`, `add_favorability`),
    the nine-band classifier (`get_favorability_level`), the AFTER_LLM
    event handler (`FavorabilityEventHandler.execute`) and the
    ON_MESSAGE handler (`UserSentimentEventHandler.execute`).
  * `src/scripts/favorability_manager.py` — the administrative tool
    (`get_favorability_level` six-band variant, `modify_favorability`).

Modelling conventions:
  * Scores and timestamps are `Int` (Python ints / UNIX seconds).
  * The peewee database is a total map `String → Option FavRecord`
    together with two failure flags modelling an exception raised by
    the read primitive (`get_or_none`) or the write primitive
    (`save` / `create`); the Python `try/except` blocks become
    explicit tests of those flags.
  * Message text is taken after the quoted-reply stripping
    (`re.sub`) and `strip()` performed at the top of each handler;
    Python's `keyword in text` substring test becomes a character
    list infix test, `str.lower` becomes `String.toLower`.
  * Every handler returns, besides the updated trackers and store,
    a `ScoreAction` recording which `add_favorability` call (if any)
    the event performed; `.noop` means the event produced no store
    mutation.
-/

/-- A row of the `Favorability` table (fields used by the plugin). -/
structure FavRecord where
  favorability : Int
  level : String
  total_interactions : Int
  positive_interactions : Int
  negative_interactions : Int
  last_interaction : Int
  created_at : Int
deriving DecidableEq

/-- The durable store: the `Favorability` table keyed by `person_id`,
plus flags modelling an exception thrown by the read / write primitive. -/
structure DB where
  store : String → Option FavRecord
  get_fails : Bool
  save_fails : Bool

/-- Point update of a keyed map. -/
def updateFn {α : Type} (f : String → α) (k : String) (v : α) : String → α :=
  fun q => if q = k then v else f q

/-- Write a record into the table at `person_id`. -/
def DB.put (db : DB) (pid : String) (r : FavRecord) : DB :=
  { db with store := updateFn db.store pid (some r) }

/-- The empty database with no failures, as after `db.create_tables`. -/
def dbEmpty : DB := ⟨fun _ => none, false, false⟩

/-- `get_favorability_level` from `plugin.py` (lines 128-147): the
nine-band classifier over scores in `[-50,150]`. -/
def get_favorability_level (favorability : Int) : String :=
  if favorability ≥ 120 then "至亲"
  else if favorability ≥ 90 then "挚友"
  else if favorability ≥ 70 then "好友"
  else if favorability ≥ 50 then "熟人"
  else if favorability ≥ 30 then "认识"
  else if favorability ≥ 10 then "陌生"
  else if favorability ≥ -10 then "厌恶"
  else if favorability ≥ -30 then "敌视"
  else "死敌"

/-- `get_favorability` from `plugin.py` (lines 35-44): read accessor;
returns 50 for a missing record and 50 when the store read raises. -/
def get_favorability (db : DB) (person_id : String) : Int :=
  if db.get_fails then 50
  else
    match db.store person_id with
    | some record => record.favorability
    | none => 50

/-- `get_favorability_record` from `plugin.py` (lines 47-53): returns the
raw row, `none` when absent or when the store read raises. -/
def get_favorability_record (db : DB) (person_id : String) : Option FavRecord :=
  if db.get_fails then none else db.store person_id

/-- `set_favorability` from `plugin.py` (lines 56-82): clamps the value
into `[-50,150]`, re-bands, writes; returns `false` and leaves the store
unchanged when the read or the write primitive raises. -/
def set_favorability (db : DB) (person_id : String) (value : Int) (now : Int) :
    Bool × DB :=
  let v := max (-50) (min 150 value)
  let level := get_favorability_level v
  if db.get_fails then (false, db)
  else
    match db.store person_id with
    | some record =>
        if db.save_fails then (false, db)
        else (true, db.put person_id
          { record with favorability := v, level := level, last_interaction := now })
    | none =>
        if db.save_fails then (false, db)
        else (true, db.put person_id
          ⟨v, level, 0, 0, 0, now, now⟩)

/-- `add_favorability` from `plugin.py` (lines 85-125): reads the current
score (default 50 when no record exists), clamps `current + delta` into
`[-50,150]`, re-bands, bumps the interaction counters and writes; returns
50 and leaves the store unchanged when the read or the write raises. -/
def add_favorability (db : DB) (person_id : String) (delta : Int)
    (interaction_type : String) (now : Int) : Int × DB :=
  if db.get_fails then (50, db)
  else
    let record := db.store person_id
    let current := match record with
      | some r => r.favorability
      | none => 50
    let new_value := max (-50) (min 150 (current + delta))
    let level := get_favorability_level new_value
    if db.save_fails then (50, db)
    else
      match record with
      | some r => (new_value, db.put person_id
          { r with favorability := new_value, level := level,
                   total_interactions := r.total_interactions + 1,
                   positive_interactions := r.positive_interactions +
                     (if interaction_type = "positive" then 1 else 0),
                   negative_interactions := r.negative_interactions +
                     (if interaction_type = "negative" then 1 else 0),
                   last_interaction := now })
      | none => (new_value, db.put person_id
          ⟨new_value, level,
           1,
           (if interaction_type = "positive" then 1 else 0),
           (if interaction_type = "negative" then 1 else 0),
           now, now⟩)

/-- `get_favorability_level` from `scripts/favorability_manager.py`
(lines 14-27): the administrative tool's own six-band classifier. -/
def manager_get_favorability_level (fav : Int) : String :=
  if fav ≥ 90 then "挚友"
  else if fav ≥ 70 then "好友"
  else if fav ≥ 50 then "熟人"
  else if fav ≥ 30 then "认识"
  else if fav ≥ 10 then "陌生"
  else "厌恶"

/-- `modify_favorability` from `scripts/favorability_manager.py`
(lines 95-120): clamps the requested value with `max(0, min(150, v))`,
re-bands with the script's own six-band classifier, and writes. -/
def modify_favorability (db : DB) (person_id : String) (new_value : Int)
    (now : Int) : DB :=
  let v := max 0 (min 150 new_value)
  let new_level := manager_get_favorability_level v
  match db.store person_id with
  | some record => db.put person_id
      { record with favorability := v, level := new_level }
  | none => db.put person_id ⟨v, new_level, 0, 0, 0, now, now⟩

/-- Spec-side definition (for the refinement comparison of claim C2):
the nine-range step mapping of spec §4.1 over the partition of
`[-50,150]`, written range by range exactly as the spec lists it, with
the code's label strings standing for the spec's band names
(`至亲` = kin, `挚友` = bestfriend, `好友` = friend, `熟人` = acquaintance,
`认识` = known, `陌生` = stranger, `厌恶` = disliked, `敌视` = hostile,
`死敌` = nemesis). -/
def specBand (s : Int) : String :=
  if 120 ≤ s ∧ s ≤ 150 then "至亲"
  else if 90 ≤ s ∧ s ≤ 119 then "挚友"
  else if 70 ≤ s ∧ s ≤ 89 then "好友"
  else if 50 ≤ s ∧ s ≤ 69 then "熟人"
  else if 30 ≤ s ∧ s ≤ 49 then "认识"
  else if 10 ≤ s ∧ s ≤ 29 then "陌生"
  else if -10 ≤ s ∧ s ≤ 9 then "厌恶"
  else if -30 ≤ s ∧ s ≤ -11 then "敌视"
  else if -50 ≤ s ∧ s ≤ -31 then "死敌"
  else ""

/-- Spec-side ordering of the nine bands of §4.1, lowest relationship
first; used to state that the band is monotonically non-decreasing in
the score. -/
def specBandRank (b : String) : Nat :=
  if b = "死敌" then 0
  else if b = "敌视" then 1
  else if b = "厌恶" then 2
  else if b = "陌生" then 3
  else if b = "认识" then 4
  else if b = "熟人" then 5
  else if b = "好友" then 6
  else if b = "挚友" then 7
  else if b = "至亲" then 8
  else 9

/-- Python's `sub in s` substring test, on the character lists of the
two strings. -/
def containsSub (s sub : String) : Bool :=
  decide (List.IsInfix sub.data s.data)

/-- Python's `str.lower()`, character by character (`String.toLower`
has the same value but is opaque to kernel evaluation, so the model
maps over the character list directly). -/
def strLower (s : String) : String := ⟨s.data.map Char.toLower⟩

/-- Truthiness of Python's `s.strip()`: the string has some
non-whitespace character. -/
def stripNonempty (s : String) : Bool := s.data.any (fun c => !c.isWhitespace)

/-- `any(keyword in text for keyword in lst)`. -/
def anyKeyword (lst : List String) (text : String) : Bool :=
  lst.any (fun kw => containsSub text kw)

/-- First-match-wins scan of a keyword list against a text:
`for keyword in lst: if keyword in text: ...` reports the first
matching keyword. -/
def firstKeyword (lst : List String) (text : String) : Option String :=
  lst.find? (fun kw => containsSub text kw)

/-- First-match-wins scan of an ordered label table
(`for label, keywords in table.items(): if any(...): break`). -/
def firstLabel (table : List (String × List String)) (text : String) :
    Option String :=
  (table.find? (fun p => anyKeyword p.2 text)).map (fun p => p.1)

/-- `len(re.sub(r"\s+", "", content))` — length with whitespace stripped. -/
def lenNoSpace (s : String) : Int :=
  ((s.data.filter (fun c => !c.isWhitespace)).length : Int)

/-- `FavorabilityEventHandler.AFFECTIONATE_KEYWORDS`. -/
def AFFECTIONATE_KEYWORDS : List String :=
  ["咲夜姐姐", "咲夜妹妹", "咲夜学姐", "咲夜学妹",
   "咲夜酱", "小咲夜", "我家咲夜", "咲夜宝贝",
   "女仆长大人", "完美女仆长",
   "喜欢咲夜", "最喜欢咲夜", "爱咲夜",
   "好喜欢你", "最喜欢你", "爱你哦", "亲亲",
   "么么哒", "mua", "比心", "贴贴"]

/-- `FavorabilityEventHandler.SOFTEN_NEGATIVE_KEYWORDS`. -/
def SOFTEN_NEGATIVE_KEYWORDS : List String :=
  ["抱歉", "不好意思", "对不起", "失礼", "冒犯了", "打扰了",
   "抱怨下", "吐槽一下", "只是吐槽"]

/-- `FavorabilityEventHandler.POSITIVE_KEYWORDS`. -/
def POSITIVE_KEYWORDS : List String :=
  ["谢谢", "感谢", "谢谢你", "非常感谢", "太感谢了", "辛苦了", "感恩",
   "你真好", "你真棒", "学到了", "受教了", "佩服",
   "厉害", "好厉害", "太强了", "真棒", "棒棒哒",
   "晚安", "早安", "上午好", "下午好", "吃了吗",
   "赞", "好赞", "666", "可爱", "萌", "漂亮",
   "保重身体", "注意休息", "别太累", "加油"]

/-- `FavorabilityEventHandler.NEGATIVE_KEYWORDS`. -/
def NEGATIVE_KEYWORDS : List String :=
  ["傻逼", "智障", "废物", "垃圾", "去死", "滚", "闭嘴",
   "sb", "cnm", "nmsl", "脑残", "白痴", "弱智", "nc",
   "傻子", "蠢货", "混蛋", "贱", "婊", "妈的", "狗东西",
   "死妈", "你妈死了", "全家", "祖宗", "死全家",
   "人渣", "败类", "畜生", "狗娘养", "杂种",
   "恶心", "讨厌你", "滚开", "消失", "死开",
   "脑子有病", "有病吧", "神经病", "变态", "恶心死了",
   "low", "垃圾货", "废柴", "没用", "丢人",
   "丢脸", "蠢死了", "笨死了"]

/-- `FavorabilityEventHandler.MILD_NEGATIVE_KEYWORDS`. -/
def MILD_NEGATIVE_KEYWORDS : List String :=
  ["有点烦", "有点烦人", "烦死了", "无语", "有点无语",
   "不太行", "不太好", "不太满意", "一般般", "就这", "有点尴尬",
   "不太对", "怪怪的", "emmm", "额..."]

/-- `FavorabilityEventHandler.SEVERE_KEYWORDS`. -/
def SEVERE_KEYWORDS : List String :=
  ["傻逼", "去死", "cnm", "nmsl", "死妈", "死全家",
   "人渣", "畜生", "杂种", "狗娘养",
   "弄死你", "打死你", "揍你"]

/-- `FavorabilityEventHandler.REASONING_BEHAVIOR_LABELS`, in the
dict's insertion (= iteration) order. -/
def REASONING_BEHAVIOR_LABELS : List (String × List String) :=
  [("insult", ["辱骂", "人身攻击", "恶意攻击"]),
   ("harassment", ["骚扰", "性暗示", "色情", "淫秽", "调戏", "非礼", "越界"]),
   ("threat", ["威胁", "恐吓"]),
   ("rude", ["不尊重", "下流", "不雅", "开黄腔", "荤段子"])]

/-- `FavorabilityEventHandler.REASONING_POSITIVE_LABELS`, in the
dict's insertion (= iteration) order. -/
def REASONING_POSITIVE_LABELS : List (String × List String) :=
  [("high", ["信任", "喜欢", "关心", "鼓励", "支持"]),
   ("mid", ["感谢", "夸赞", "称赞", "认可", "肯定", "表扬"]),
   ("low", ["友好"])]

/-- `FavorabilityEventHandler.REASONING_OTHERS_TARGET`. -/
def REASONING_OTHERS_TARGET : List String :=
  ["对他人", "对别人", "对群友", "对某人", "针对别人", "针对群友",
   "群友之间", "对他", "对她"]

/-- `FavorabilityEventHandler.REASONING_HEDGE_KEYWORDS`. -/
def REASONING_HEDGE_KEYWORDS : List String :=
  ["可能", "也许", "似乎", "推测", "猜测", "不确定", "疑似",
   "像是", "感觉像", "玩笑", "开玩笑", "调侃"]

/-- `FavorabilityEventHandler.NOT_TALKING_TO_ME_KEYWORDS`. -/
def NOT_TALKING_TO_ME_KEYWORDS : List String :=
  ["不是在和我说话", "不是对我说的", "不是说给我", "不是跟我说",
   "与我无关", "跟我无关", "和我无关",
   "群友之间", "群友们在聊", "群友在讨论", "群友自己",
   "他们在聊", "他们之间", "他们自己",
   "别人的对话", "别人在聊", "别人的话题",
   "没有提到我", "没有叫我", "没有@我", "没有呼叫我",
   "不是针对我", "不需要我回复", "无需回复",
   "旁观", "围观", "看热闹", "吃瓜"]

/-- The module-level mutable trackers of `plugin.py` (lines 431-445),
all keyed by `person_id`.  Python's `dict.get(pid, 0)` default becomes a
total function defaulting to `0` (resp. `[]`); the daily tracker keeps
the explicit "absent" state because the code tests membership. -/
structure Trackers where
  negative_behavior : String → List (Int × String)
  normal_tracker : String → Int
  positive_tracker : String → Int
  negative_tracker : String → Int
  daily : String → Option (String × Int)

/-- The trackers at module load: all dictionaries empty. -/
def initTrackers : Trackers :=
  ⟨fun _ => [], fun _ => 0, fun _ => 0, fun _ => 0, fun _ => none⟩

/-- Which `add_favorability` call (if any) an event performed:
`.noop` means the event produced no store mutation. -/
inductive ScoreAction where
  | noop : ScoreAction
  | add (delta : Int) (interaction_type : String) : ScoreAction
deriving DecidableEq

/-- Outcome of one handler invocation: the score action taken, the
updated trackers and the updated store. -/
structure ExecResult where
  action : ScoreAction
  state : Trackers
  db : DB

/-- The configuration values read (with the given defaults) at the top
of `FavorabilityEventHandler.execute` (lines 646-662 and 904-906) and
in `UserSentimentEventHandler.execute`; `_get_int_config` coercions are
already applied, so every numeric knob is an `Int`. -/
structure FavConfig where
  positive_delta : Int := 1
  affectionate_delta : Int := 3
  negative_delta : Int := -5
  mild_negative_delta : Int := 0
  severe_delta : Int := -5
  harassment_delta : Int := -5
  harassment_window : Int := 300
  harassment_threshold : Int := 3
  positive_cooldown : Int := 120
  negative_cooldown : Int := 120
  min_positive_len : Int := 4
  min_normal_len : Int := 6
  positive_bonus_delta : Int := 1
  reasoning_positive_delta : Int := 1
  reasoning_positive_bonus_high : Int := 2
  reasoning_positive_bonus_mid : Int := 1
  reasoning_positive_bonus_low : Int := 1
  normal_delta : Int := 1
  normal_cooldown : Int := 600
  daily_limit : Int := 10
  interaction_cooldown_seconds : Int := 120
  skip_penalty_when_not_talking : Bool := true
  reasoning_detection_enabled : Bool := false

/-- The defaults of `FavorabilityEventHandler.execute`'s `get_config`
calls, as a concrete configuration. -/
def defaultCfg : FavConfig := {}

/-- The "not talking to me" branch of `FavorabilityEventHandler.execute`
(lines 691-718): reached when a NOT_TALKING_TO_ME marker occurred in the
combined reasoning; penalizes only abuse of third parties, otherwise at
most refreshes the normal-interaction timestamp. -/
def notTalkingBranch (cfg : FavConfig) (st : Trackers) (db : DB)
    (person_id combined : String) (now : Int) : ExecResult :=
  let others_targeted := anyKeyword REASONING_OTHERS_TARGET combined
  let behavior_label := firstLabel REASONING_BEHAVIOR_LABELS combined
  if others_targeted = true ∧ (behavior_label = some "insult" ∨
      behavior_label = some "harassment" ∨ behavior_label = some "threat") then
    if now - st.negative_tracker person_id ≥ cfg.negative_cooldown then
      ⟨.add cfg.negative_delta "negative",
       { st with negative_tracker := updateFn st.negative_tracker person_id now },
       (add_favorability db person_id cfg.negative_delta "negative" now).2⟩
    else ⟨.noop, st, db⟩
  else
    if now - st.normal_tracker person_id ≥ cfg.interaction_cooldown_seconds then
      ⟨.noop,
       { st with normal_tracker := updateFn st.normal_tracker person_id now },
       db⟩
    else ⟨.noop, st, db⟩

/-- The reasoning-based detection block of
`FavorabilityEventHandler.execute` (lines 721-785).  Returns `some`
exactly when one of its `return` statements runs; `none` falls through
to the keyword scans.  A behavior label whose negative cooldown is
still active falls through to the positive-tier scan (the code has no
`return` on that path), and a positive tier whose positive cooldown is
still active falls through to the keyword scans. -/
def reasoningBranch (cfg : FavConfig) (st : Trackers) (db : DB)
    (person_id combined : String) (now : Int) : Option ExecResult :=
  if stripNonempty combined = true ∧ cfg.reasoning_detection_enabled = true then
    let hedge_detected := anyKeyword REASONING_HEDGE_KEYWORDS combined
    let behavior_label := firstLabel REASONING_BEHAVIOR_LABELS combined
    let positive_part : Option ExecResult :=
      match firstLabel REASONING_POSITIVE_LABELS combined with
      | some tier =>
          if now - st.positive_tracker person_id ≥ cfg.positive_cooldown then
            let tier_bonus :=
              if tier = "high" then cfg.reasoning_positive_bonus_high
              else if tier = "mid" then cfg.reasoning_positive_bonus_mid
              else if tier = "low" then cfg.reasoning_positive_bonus_low
              else cfg.reasoning_positive_bonus_mid
            let delta := cfg.reasoning_positive_delta + tier_bonus - 1
            some ⟨.add delta "positive",
              { st with positive_tracker := updateFn st.positive_tracker person_id now },
              (add_favorability db person_id delta "positive" now).2⟩
          else none
      | none => none
    match behavior_label with
    | some label =>
        if hedge_detected then some ⟨.noop, st, db⟩
        else if now - st.negative_tracker person_id ≥ cfg.negative_cooldown then
          let delta := if label = "rude" then cfg.mild_negative_delta
                       else cfg.negative_delta
          if delta ≠ 0 then
            some ⟨.add delta "negative",
              { st with negative_tracker := updateFn st.negative_tracker person_id now },
              (add_favorability db person_id delta "negative" now).2⟩
          else some ⟨.noop, st, db⟩
        else positive_part
    | none => positive_part
  else none

/-- The severe-keyword block of `FavorabilityEventHandler.execute`
(lines 789-820): first matching severe keyword is logged into the
sliding window; escalation to the harassment delta takes priority over
the cooldown check. -/
def severeBranch (cfg : FavConfig) (st : Trackers) (db : DB)
    (person_id content_lower : String) (now : Int) : Option ExecResult :=
  match firstKeyword SEVERE_KEYWORDS content_lower with
  | none => none
  | some keyword =>
      let log := ((st.negative_behavior person_id) ++ [(now, keyword)]).filter
        (fun e => now - e.1 < cfg.harassment_window)
      let st1 := { st with negative_behavior := updateFn st.negative_behavior person_id log }
      if (log.length : Int) ≥ cfg.harassment_threshold then
        some ⟨.add cfg.harassment_delta "negative",
          { st1 with negative_tracker := updateFn st1.negative_tracker person_id now },
          (add_favorability db person_id cfg.harassment_delta "negative" now).2⟩
      else if now - st.negative_tracker person_id < cfg.negative_cooldown then
        some ⟨.noop, st1, db⟩
      else
        some ⟨.add cfg.severe_delta "negative",
          { st1 with negative_tracker := updateFn st1.negative_tracker person_id now },
          (add_favorability db person_id cfg.severe_delta "negative" now).2⟩

/-- The mild-negative block of `FavorabilityEventHandler.execute`
(lines 824-832): cooldown-gated small penalty, no sliding-window
logging. -/
def mildBranch (cfg : FavConfig) (st : Trackers) (db : DB)
    (person_id content_lower : String) (now : Int) : Option ExecResult :=
  match firstKeyword MILD_NEGATIVE_KEYWORDS content_lower with
  | none => none
  | some _ =>
      if now - st.negative_tracker person_id < cfg.negative_cooldown then
        some ⟨.noop, st, db⟩
      else
        some ⟨.add cfg.mild_negative_delta "negative",
          { st with negative_tracker := updateFn st.negative_tracker person_id now },
          (add_favorability db person_id cfg.mild_negative_delta "negative" now).2⟩

/-- The ordinary-negative block of `FavorabilityEventHandler.execute`
(lines 835-869): softening markers halve the delta via
`min(-1, int(negative_delta / 2))`; the hit is logged, and escalation
to the harassment delta takes priority over the cooldown check. -/
def negativeBranch (cfg : FavConfig) (st : Trackers) (db : DB)
    (person_id content_lower : String) (now : Int) : Option ExecResult :=
  match firstKeyword NEGATIVE_KEYWORDS content_lower with
  | none => none
  | some keyword =>
      let soften_negative := anyKeyword SOFTEN_NEGATIVE_KEYWORDS content_lower
      let adjusted_negative_delta :=
        if soften_negative then min (-1) (Int.tdiv cfg.negative_delta 2)
        else cfg.negative_delta
      let log := ((st.negative_behavior person_id) ++ [(now, keyword)]).filter
        (fun e => now - e.1 < cfg.harassment_window)
      let st1 := { st with negative_behavior := updateFn st.negative_behavior person_id log }
      if (log.length : Int) ≥ cfg.harassment_threshold then
        some ⟨.add cfg.harassment_delta "negative",
          { st1 with negative_tracker := updateFn st1.negative_tracker person_id now },
          (add_favorability db person_id cfg.harassment_delta "negative" now).2⟩
      else if now - st.negative_tracker person_id < cfg.negative_cooldown then
        some ⟨.noop, st1, db⟩
      else
        some ⟨.add adjusted_negative_delta "negative",
          { st1 with negative_tracker := updateFn st1.negative_tracker person_id now },
          (add_favorability db person_id adjusted_negative_delta "negative" now).2⟩

/-- The affectionate-keyword block of `FavorabilityEventHandler.execute`
(lines 874-884): minimum-length gate, then positive cooldown gate. -/
def affectionateBranch (cfg : FavConfig) (st : Trackers) (db : DB)
    (person_id content_lower : String) (content_len_no_space now : Int) :
    Option ExecResult :=
  match firstKeyword AFFECTIONATE_KEYWORDS content_lower with
  | none => none
  | some _ =>
      if content_len_no_space < cfg.min_positive_len then some ⟨.noop, st, db⟩
      else if now - st.positive_tracker person_id < cfg.positive_cooldown then
        some ⟨.noop, st, db⟩
      else
        some ⟨.add cfg.affectionate_delta "positive",
          { st with positive_tracker := updateFn st.positive_tracker person_id now },
          (add_favorability db person_id cfg.affectionate_delta "positive" now).2⟩

/-- The positive-keyword block of `FavorabilityEventHandler.execute`
(lines 887-900): minimum-length gate, positive cooldown gate, and a
length bonus when the stripped length reaches three times the
minimum. -/
def positiveBranch (cfg : FavConfig) (st : Trackers) (db : DB)
    (person_id content_lower : String) (content_len_no_space now : Int) :
    Option ExecResult :=
  match firstKeyword POSITIVE_KEYWORDS content_lower with
  | none => none
  | some _ =>
      if content_len_no_space < cfg.min_positive_len then some ⟨.noop, st, db⟩
      else if now - st.positive_tracker person_id < cfg.positive_cooldown then
        some ⟨.noop, st, db⟩
      else
        let boost_delta :=
          if content_len_no_space ≥ cfg.min_positive_len * 3 then
            cfg.positive_delta + cfg.positive_bonus_delta
          else cfg.positive_delta
        some ⟨.add boost_delta "positive",
          { st with positive_tracker := updateFn st.positive_tracker person_id now },
          (add_favorability db person_id boost_delta "positive" now).2⟩

/-- The terminal normal-interaction block of
`FavorabilityEventHandler.execute` (lines 902-941): long-cooldown gate,
then per-calendar-day counter with reset on date change; only a
successful gain refreshes the normal-interaction timestamp. -/
def normalBranch (cfg : FavConfig) (st : Trackers) (db : DB)
    (person_id : String) (content_len_no_space now : Int) (today : String) :
    ExecResult :=
  if content_len_no_space ≥ cfg.min_normal_len then
    if now - st.normal_tracker person_id < cfg.normal_cooldown then
      ⟨.noop, st, db⟩
    else
      let tracker0 := (st.daily person_id).getD (today, 0)
      let tracker := if tracker0.1 ≠ today then (today, 0) else tracker0
      if tracker.2 ≥ cfg.daily_limit then
        ⟨.noop, { st with daily := updateFn st.daily person_id (some tracker) }, db⟩
      else
        ⟨.add cfg.normal_delta "neutral",
         { st with
             normal_tracker := updateFn st.normal_tracker person_id now,
             daily := updateFn st.daily person_id
               (some (tracker.1, tracker.2 + cfg.normal_delta)) },
         (add_favorability db person_id cfg.normal_delta "neutral" now).2⟩
  else ⟨.noop, st, db⟩

/-- `FavorabilityEventHandler.execute` (AFTER_LLM handler, lines
599-941).  `content` is the message text after quoted-reply stripping
and `strip()`; `combined_raw` is `f"{llm_reasoning} {planner_reasoning}"`
before the `.lower()` call; `today` is `datetime.now().strftime("%Y-%m-%d")`.
The priority cascade (first match returns) follows the code:
not-talking-to-me guard, reasoning detection, severe, mild, ordinary
negative, affectionate, positive, then the normal-interaction default. -/
def favExecute (cfg : FavConfig) (st : Trackers) (db : DB)
    (person_id content combined_raw : String) (now : Int) (today : String) :
    ExecResult :=
  if content = "" then ⟨.noop, st, db⟩
  else
    let content_lower := strLower content
    let content_len_no_space := lenNoSpace content
    let combined := strLower combined_raw
    if (cfg.skip_penalty_when_not_talking &&
        anyKeyword NOT_TALKING_TO_ME_KEYWORDS combined) = true then
      notTalkingBranch cfg st db person_id combined now
    else
      match reasoningBranch cfg st db person_id combined now with
      | some r => r
      | none =>
      match severeBranch cfg st db person_id content_lower now with
      | some r => r
      | none =>
      match mildBranch cfg st db person_id content_lower now with
      | some r => r
      | none =>
      match negativeBranch cfg st db person_id content_lower now with
      | some r => r
      | none =>
      match affectionateBranch cfg st db person_id content_lower content_len_no_space now with
      | some r => r
      | none =>
      match positiveBranch cfg st db person_id content_lower content_len_no_space now with
      | some r => r
      | none =>
      normalBranch cfg st db person_id content_len_no_space now today

/-- `UserSentimentEventHandler.execute` (ON_MESSAGE handler, lines
951-1029): scans the sanitized text for severe keywords only, logs the
hit into the shared sliding window, applies the harassment delta at the
threshold and the severe delta below it.  It reads and writes no
cooldown timestamp. -/
def sentimentExecute (cfg : FavConfig) (st : Trackers) (db : DB)
    (person_id content : String) (now : Int) : ExecResult :=
  if content = "" then ⟨.noop, st, db⟩
  else
    let content_lower := strLower content
    match firstKeyword SEVERE_KEYWORDS content_lower with
    | none => ⟨.noop, st, db⟩
    | some keyword =>
        let log := ((st.negative_behavior person_id) ++
          [(now, "user_input:" ++ keyword)]).filter
          (fun e => now - e.1 < cfg.harassment_window)
        let st1 := { st with negative_behavior := updateFn st.negative_behavior person_id log }
        if (log.length : Int) ≥ cfg.harassment_threshold then
          ⟨.add cfg.harassment_delta "negative", st1,
           (add_favorability db person_id cfg.harassment_delta "negative" now).2⟩
        else
          ⟨.add cfg.severe_delta "negative", st1,
           (add_favorability db person_id cfg.severe_delta "negative" now).2⟩

/-- Defensional characterization of the nine-band classifier used by the
band lemmas below. -/
theorem gfl_eq (s : Int) :
    get_favorability_level s =
      if s ≥ 120 then "至亲" else if s ≥ 90 then "挚友" else if s ≥ 70 then "好友"
      else if s ≥ 50 then "熟人" else if s ≥ 30 then "认识" else if s ≥ 10 then "陌生"
      else if s ≥ -10 then "厌恶" else if s ≥ -30 then "敌视" else "死敌" := rfl

theorem rank_eq_of_ge_120 (u : Int) (h : u ≥ 120) :
    specBandRank (get_favorability_level u) = 8 := by
  rw [gfl_eq, if_pos h]; decide

theorem rank_ge_90 (u : Int) (h : u ≥ 90) :
    7 ≤ specBandRank (get_favorability_level u) := by
  rw [gfl_eq]
  by_cases c1 : u ≥ 120
  · rw [if_pos c1]; decide
  · rw [if_neg c1, if_pos h]; decide

theorem rank_ge_70 (u : Int) (h : u ≥ 70) :
    6 ≤ specBandRank (get_favorability_level u) := by
  rw [gfl_eq]
  by_cases c1 : u ≥ 120
  · rw [if_pos c1]; decide
  rw [if_neg c1]
  by_cases c2 : u ≥ 90
  · rw [if_pos c2]; decide
  · rw [if_neg c2, if_pos h]; decide

theorem rank_ge_50 (u : Int) (h : u ≥ 50) :
    5 ≤ specBandRank (get_favorability_level u) := by
  rw [gfl_eq]
  by_cases c1 : u ≥ 120
  · rw [if_pos c1]; decide
  rw [if_neg c1]
  by_cases c2 : u ≥ 90
  · rw [if_pos c2]; decide
  rw [if_neg c2]
  by_cases c3 : u ≥ 70
  · rw [if_pos c3]; decide
  · rw [if_neg c3, if_pos h]; decide

theorem rank_ge_30 (u : Int) (h : u ≥ 30) :
    4 ≤ specBandRank (get_favorability_level u) := by
  rw [gfl_eq]
  by_cases c1 : u ≥ 120
  · rw [if_pos c1]; decide
  rw [if_neg c1]
  by_cases c2 : u ≥ 90
  · rw [if_pos c2]; decide
  rw [if_neg c2]
  by_cases c3 : u ≥ 70
  · rw [if_pos c3]; decide
  rw [if_neg c3]
  by_cases c4 : u ≥ 50
  · rw [if_pos c4]; decide
  · rw [if_neg c4, if_pos h]; decide

theorem rank_ge_10 (u : Int) (h : u ≥ 10) :
    3 ≤ specBandRank (get_favorability_level u) := by
  rw [gfl_eq]
  by_cases c1 : u ≥ 120
  · rw [if_pos c1]; decide
  rw [if_neg c1]
  by_cases c2 : u ≥ 90
  · rw [if_pos c2]; decide
  rw [if_neg c2]
  by_cases c3 : u ≥ 70
  · rw [if_pos c3]; decide
  rw [if_neg c3]
  by_cases c4 : u ≥ 50
  · rw [if_pos c4]; decide
  rw [if_neg c4]
  by_cases c5 : u ≥ 30
  · rw [if_pos c5]; decide
  · rw [if_neg c5, if_pos h]; decide

theorem rank_ge_neg10 (u : Int) (h : u ≥ -10) :
    2 ≤ specBandRank (get_favorability_level u) := by
  rw [gfl_eq]
  by_cases c1 : u ≥ 120
  · rw [if_pos c1]; decide
  rw [if_neg c1]
  by_cases c2 : u ≥ 90
  · rw [if_pos c2]; decide
  rw [if_neg c2]
  by_cases c3 : u ≥ 70
  · rw [if_pos c3]; decide
  rw [if_neg c3]
  by_cases c4 : u ≥ 50
  · rw [if_pos c4]; decide
  rw [if_neg c4]
  by_cases c5 : u ≥ 30
  · rw [if_pos c5]; decide
  rw [if_neg c5]
  by_cases c6 : u ≥ 10
  · rw [if_pos c6]; decide
  · rw [if_neg c6, if_pos h]; decide

theorem rank_ge_neg30 (u : Int) (h : u ≥ -30) :
    1 ≤ specBandRank (get_favorability_level u) := by
  rw [gfl_eq]
  by_cases c1 : u ≥ 120
  · rw [if_pos c1]; decide
  rw [if_neg c1]
  by_cases c2 : u ≥ 90
  · rw [if_pos c2]; decide
  rw [if_neg c2]
  by_cases c3 : u ≥ 70
  · rw [if_pos c3]; decide
  rw [if_neg c3]
  by_cases c4 : u ≥ 50
  · rw [if_pos c4]; decide
  rw [if_neg c4]
  by_cases c5 : u ≥ 30
  · rw [if_pos c5]; decide
  rw [if_neg c5]
  by_cases c6 : u ≥ 10
  · rw [if_pos c6]; decide
  rw [if_neg c6]
  by_cases c7 : u ≥ -10
  · rw [if_pos c7]; decide
  · rw [if_neg c7, if_pos h]; decide

/-- The classifier agrees with the spec §4.1 partition on `[-50,150]`. -/
theorem gfl_eq_specBand (s : Int) (h1 : -50 ≤ s) (h2 : s ≤ 150) :
    get_favorability_level s = specBand s := by
  rw [gfl_eq]
  unfold specBand
  by_cases c1 : s ≥ 120
  · rw [if_pos c1, if_pos (by omega : 120 ≤ s ∧ s ≤ 150)]
  rw [if_neg c1, if_neg (by omega : ¬(120 ≤ s ∧ s ≤ 150))]
  by_cases c2 : s ≥ 90
  · rw [if_pos c2, if_pos (by omega : 90 ≤ s ∧ s ≤ 119)]
  rw [if_neg c2, if_neg (by omega : ¬(90 ≤ s ∧ s ≤ 119))]
  by_cases c3 : s ≥ 70
  · rw [if_pos c3, if_pos (by omega : 70 ≤ s ∧ s ≤ 89)]
  rw [if_neg c3, if_neg (by omega : ¬(70 ≤ s ∧ s ≤ 89))]
  by_cases c4 : s ≥ 50
  · rw [if_pos c4, if_pos (by omega : 50 ≤ s ∧ s ≤ 69)]
  rw [if_neg c4, if_neg (by omega : ¬(50 ≤ s ∧ s ≤ 69))]
  by_cases c5 : s ≥ 30
  · rw [if_pos c5, if_pos (by omega : 30 ≤ s ∧ s ≤ 49)]
  rw [if_neg c5, if_neg (by omega : ¬(30 ≤ s ∧ s ≤ 49))]
  by_cases c6 : s ≥ 10
  · rw [if_pos c6, if_pos (by omega : 10 ≤ s ∧ s ≤ 29)]
  rw [if_neg c6, if_neg (by omega : ¬(10 ≤ s ∧ s ≤ 29))]
  by_cases c7 : s ≥ -10
  · rw [if_pos c7, if_pos (by omega : -10 ≤ s ∧ s ≤ 9)]
  rw [if_neg c7, if_neg (by omega : ¬(-10 ≤ s ∧ s ≤ 9))]
  by_cases c8 : s ≥ -30
  · rw [if_pos c8, if_pos (by omega : -30 ≤ s ∧ s ≤ -11)]
  rw [if_neg c8, if_neg (by omega : ¬(-30 ≤ s ∧ s ≤ -11))]
  rw [if_pos (by omega : -50 ≤ s ∧ s ≤ -31)]

/-- The band rank is monotonically non-decreasing in the score. -/
theorem specBandRank_mono (s t : Int) (h : s ≤ t) :
    specBandRank (get_favorability_level s) ≤ specBandRank (get_favorability_level t) := by
  rw [gfl_eq s]
  by_cases c1 : s ≥ 120
  · rw [if_pos c1, rank_eq_of_ge_120 t (by omega)]; decide
  rw [if_neg c1]
  by_cases c2 : s ≥ 90
  · rw [if_pos c2]
    exact le_trans (by decide) (rank_ge_90 t (by omega))
  rw [if_neg c2]
  by_cases c3 : s ≥ 70
  · rw [if_pos c3]
    exact le_trans (by decide) (rank_ge_70 t (by omega))
  rw [if_neg c3]
  by_cases c4 : s ≥ 50
  · rw [if_pos c4]
    exact le_trans (by decide) (rank_ge_50 t (by omega))
  rw [if_neg c4]
  by_cases c5 : s ≥ 30
  · rw [if_pos c5]
    exact le_trans (by decide) (rank_ge_30 t (by omega))
  rw [if_neg c5]
  by_cases c6 : s ≥ 10
  · rw [if_pos c6]
    exact le_trans (by decide) (rank_ge_10 t (by omega))
  rw [if_neg c6]
  by_cases c7 : s ≥ -10
  · rw [if_pos c7]
    exact le_trans (by decide) (rank_ge_neg10 t (by omega))
  rw [if_neg c7]
  by_cases c8 : s ≥ -30
  · rw [if_pos c8]
    exact le_trans (by decide) (rank_ge_neg30 t (by omega))
  rw [if_neg c8]
  exact le_trans (by decide : specBandRank "死敌" ≤ 0) (Nat.zero_le _)

/-- Claim C2: the band classifier is a pure total function of the score
equal, on `[-50,150]`, to the nine-range step mapping of spec §4.1
(inclusive boundaries: score 120 maps to the kin band `至亲` and score
119 to the bestfriend band `挚友`), and it is monotonically
non-decreasing in the score with respect to the spec's band order. -/
theorem claim2_band_classifier :
    (∀ s : Int, -50 ≤ s → s ≤ 150 → get_favorability_level s = specBand s) ∧
    get_favorability_level 120 = "至亲" ∧
    get_favorability_level 119 = "挚友" ∧
    (∀ s t : Int, s ≤ t →
      specBandRank (get_favorability_level s) ≤ specBandRank (get_favorability_level t)) :=
  ⟨gfl_eq_specBand, by decide, by decide, specBandRank_mono⟩

/-- Witness for C2 at concrete scores. -/
theorem claim2_band_classifier_witness :
    get_favorability_level 77 = specBand 77 ∧
    specBandRank (get_favorability_level 3) ≤ specBandRank (get_favorability_level 119) :=
  ⟨claim2_band_classifier.1 77 (by decide) (by decide),
   claim2_band_classifier.2.2.2 3 119 (by decide)⟩

/-- Claim C1: for every person and every signed delta, whatever its
magnitude, `add_favorability` stores and returns
`clamp(old + delta, -50, 150)` where the old score of a person with no
record is the default 50, and `set_favorability` stores
`clamp(value, -50, 150)`; both stored scores lie in `[-50,150]`. -/
theorem claim1_score_clamping (db : DB) (person_id interaction_type : String)
    (delta value now : Int)
    (hg : db.get_fails = false) (hs : db.save_fails = false) :
    ((add_favorability db person_id delta interaction_type now).1 =
        max (-50) (min 150 ((match db.store person_id with
          | some r => r.favorability
          | none => 50) + delta)) ∧
      ((add_favorability db person_id delta interaction_type now).2.store person_id).map
          FavRecord.favorability =
        some ((add_favorability db person_id delta interaction_type now).1) ∧
      -50 ≤ (add_favorability db person_id delta interaction_type now).1 ∧
      (add_favorability db person_id delta interaction_type now).1 ≤ 150) ∧
    (((set_favorability db person_id value now).2.store person_id).map
        FavRecord.favorability = some (max (-50) (min 150 value)) ∧
      -50 ≤ max (-50) (min 150 value) ∧ max (-50) (min 150 value) ≤ 150) := by
  unfold add_favorability set_favorability
  rw [hg, hs]
  cases h : db.store person_id with
  | some r => simp [h, DB.put, updateFn]
  | none => simp [h, DB.put, updateFn]

/-- Witness for C1 with a huge delta on an empty store. -/
theorem claim1_score_clamping_witness :
    (add_favorability dbEmpty "u" 1000000 "positive" 7).1 = 150 ∧
    ((add_favorability dbEmpty "u" 1000000 "positive" 7).2.store "u").map
      FavRecord.favorability = some 150 := by
  have h := claim1_score_clamping dbEmpty "u" "positive" 1000000 0 7 rfl rfl
  refine ⟨?_, ?_⟩
  · rw [h.1.1]; decide
  · rw [h.1.2.1, h.1.1]; decide

/-- Counterexample to C3: the administrative `modify_favorability` does
not clamp into the engine's score range (it stores 0 for a requested
-10, although `clamp(-10,-50,150) = -10`), and it does not re-band with
the §4.1 nine-band function (for score 120 it stores the six-band label
`挚友` while the nine-band function yields `至亲`). -/
theorem claim3_counterexample :
    ((modify_favorability dbEmpty "u" 120 0).store "u").map FavRecord.level =
      some "挚友" ∧
    get_favorability_level 120 = "至亲" ∧
    ("挚友" : String) ≠ "至亲" ∧
    ((modify_favorability dbEmpty "u" (-10) 0).store "u").map FavRecord.favorability =
      some 0 ∧
    max (-50) (min 150 (-10 : Int)) = -10 ∧ (0 : Int) ≠ -10 := by
  refine ⟨by decide, by decide, by decide, by decide, by decide, by decide⟩

/-- Claim C3 (amended): the plugin's write paths (`set_favorability`,
`add_favorability`) always store the band recomputed from the stored
score by the nine-band function; the administrative script, however,
clamps the requested value into `[0,150]` (not the engine's
`[-50,150]`) and stores the band of its own six-band classifier, which
is consistent with that classifier but not with the nine-band one. -/
theorem claim3_band_consistency (db : DB) (person_id interaction_type : String)
    (delta value now : Int)
    (hg : db.get_fails = false) (hs : db.save_fails = false) :
    (∀ r, (add_favorability db person_id delta interaction_type now).2.store person_id =
        some r → r.level = get_favorability_level r.favorability) ∧
    (∀ r, (set_favorability db person_id value now).2.store person_id =
        some r → r.level = get_favorability_level r.favorability) ∧
    (∀ r, (modify_favorability db person_id value now).store person_id =
        some r → r.favorability = max 0 (min 150 value) ∧
          r.level = manager_get_favorability_level r.favorability) := by
  unfold add_favorability set_favorability modify_favorability
  rw [hg, hs]
  cases h : db.store person_id with
  | some r₀ =>
      refine ⟨?_, ?_, ?_⟩ <;> intro r hr <;>
        simp [h, DB.put, updateFn] at hr <;> subst hr <;>
        first
        | exact ⟨rfl, rfl⟩
        | rfl
  | none =>
      refine ⟨?_, ?_, ?_⟩ <;> intro r hr <;>
        simp [h, DB.put, updateFn] at hr <;> subst hr <;>
        first
        | exact ⟨rfl, rfl⟩
        | rfl

/-- Witness for C3 (amended) on a concrete store: after adding +37 to a
fresh record the stored band is the nine-band label of the stored score
87. -/
theorem claim3_band_consistency_witness :
    ((add_favorability dbEmpty "w" 37 "positive" 5).2.store "w").map FavRecord.level =
      some (get_favorability_level 87) := by
  have heq : (add_favorability dbEmpty "w" 37 "positive" 5).2.store "w" =
      some ⟨87, get_favorability_level 87, 1, 1, 0, 5, 5⟩ := by decide
  have hl := (claim3_band_consistency dbEmpty "w" "positive" 37 0 5 rfl rfl).1
    ⟨87, get_favorability_level 87, 1, 1, 0, 5, 5⟩ heq
  rw [heq, Option.map_some', hl]

/-- Counterexample to C8: on an empty store the read accessors return
the default (score 50, no record) but create nothing — the record does
not exist in the store after the query (the accessors do not write). -/
theorem claim8_counterexample :
    get_favorability dbEmpty "u" = 50 ∧
    get_favorability_record dbEmpty "u" = none ∧
    dbEmpty.store "u" = none :=
  ⟨rfl, rfl, rfl⟩

/-- Claim C8 (amended): for a person with no stored record the read
accessor reports the default score 50 without creating a record; the
default record is instead created lazily by the first score mutation
(`add_favorability`), which stores `clamp(50 + delta)` for it. -/
theorem claim8_lazy_creation (db : DB) (person_id interaction_type : String)
    (delta now : Int)
    (hg : db.get_fails = false) (hs : db.save_fails = false)
    (habs : db.store person_id = none) :
    get_favorability db person_id = 50 ∧
    get_favorability_record db person_id = none ∧
    (add_favorability db person_id delta interaction_type now).2.store person_id =
      some ⟨max (-50) (min 150 (50 + delta)),
            get_favorability_level (max (-50) (min 150 (50 + delta))),
            1,
            (if interaction_type = "positive" then 1 else 0),
            (if interaction_type = "negative" then 1 else 0),
            now, now⟩ := by
  unfold get_favorability get_favorability_record add_favorability
  rw [hg, hs]
  simp [habs, DB.put, updateFn]

/-- Witness for C8 (amended): fresh person, delta +2. -/
theorem claim8_lazy_creation_witness :
    get_favorability dbEmpty "v" = 50 ∧
    get_favorability_record dbEmpty "v" = none ∧
    (add_favorability dbEmpty "v" 2 "positive" 9).2.store "v" =
      some ⟨max (-50) (min 150 (50 + 2)),
            get_favorability_level (max (-50) (min 150 (50 + 2))),
            1, 1, 0, 9, 9⟩ := by
  have h := claim8_lazy_creation dbEmpty "v" "positive" 2 9 rfl rfl rfl
  refine ⟨h.1, h.2.1, ?_⟩
  rw [h.2.2]
  decide

/-- Claim C9: a raised store exception is always caught: a failed read
reports score 50 (and no record), and a failed mutation returns its
safe default (50 for `add_favorability`, `false` for
`set_favorability`) with the store unchanged; since every operation is
a total function into plain values, no store exception reaches the
caller. -/
theorem claim9_error_handling :
    (∀ db person_id, db.get_fails = true → get_favorability db person_id = 50) ∧
    (∀ db person_id, db.get_fails = true → get_favorability_record db person_id = none) ∧
    (∀ db person_id delta interaction_type now,
      db.get_fails = true ∨ db.save_fails = true →
      add_favorability db person_id delta interaction_type now = (50, db)) ∧
    (∀ db person_id value now,
      db.get_fails = true ∨ db.save_fails = true →
      set_favorability db person_id value now = (false, db)) := by
  refine ⟨?_, ?_, ?_, ?_⟩
  · intro db person_id h
    unfold get_favorability
    rw [h]
    rfl
  · intro db person_id h
    unfold get_favorability_record
    rw [h]
    rfl
  · intro db person_id delta interaction_type now h
    unfold add_favorability
    rcases h with h | h
    · rw [h]; rfl
    · rw [h]
      cases hg : db.get_fails
      · simp
      · rfl
  · intro db person_id value now h
    unfold set_favorability
    rcases h with h | h
    · rw [h]; rfl
    · rw [h]
      cases hg : db.get_fails
      · simp
        cases db.store person_id <;> rfl
      · rfl

/-- Witness for C9 on concrete failing stores. -/
theorem claim9_error_handling_witness :
    get_favorability ⟨fun _ => none, true, false⟩ "u" = 50 ∧
    add_favorability ⟨fun _ => none, false, true⟩ "u" 3 "positive" 0 =
      (50, ⟨fun _ => none, false, true⟩) := by
  refine ⟨claim9_error_handling.1 _ "u" rfl, ?_⟩
  exact claim9_error_handling.2.2.1 ⟨fun _ => none, false, true⟩ "u" 3 "positive" 0 (Or.inr rfl)

theorem claim5_counterexample :
    let cfg : FavConfig := { harassment_delta := -25 }
    let e1 := favExecute cfg initTrackers dbEmpty "u" "垃圾" "" 1000 "d"
    let e2 := favExecute cfg e1.state e1.db "u" "垃圾" "" 1010 "d"
    let e3 := favExecute cfg e2.state e2.db "u" "垃圾" "" 1020 "d"
    let e4 := favExecute cfg e3.state e3.db "u" "垃圾" "" 1030 "d"
    e1.action = .add (-5) "negative" ∧
    e2.action = .noop ∧
    e3.action = .add (-25) "negative" ∧
    e4.action = .add (-25) "negative" ∧
    (1030 : Int) - 1000 < cfg.harassment_window ∧
    get_favorability e4.db "u" = -5 := by
  decide

/-- Claim C5 (amended): every ordinary-negative hit whose pruned
in-window count (including the hit itself) reaches
`harassment_threshold` is scored with the harassment delta instead of
the tier's own delta — with no cooldown condition, so escalation fires
even while the negative cooldown is active — and refreshes the negative
cooldown timestamp.  In particular the 3rd and every later in-window
hit escalates, so four in-window hits produce two escalated penalties. -/
theorem claim5_escalation (cfg : FavConfig) (st : Trackers) (db : DB)
    (person_id content combined today kw : String) (now : Int)
    (hc : content ≠ "")
    (hnt : (cfg.skip_penalty_when_not_talking &&
      anyKeyword NOT_TALKING_TO_ME_KEYWORDS (strLower combined)) = false)
    (hr : reasoningBranch cfg st db person_id (strLower combined) now = none)
    (hsv : firstKeyword SEVERE_KEYWORDS (strLower content) = none)
    (hml : firstKeyword MILD_NEGATIVE_KEYWORDS (strLower content) = none)
    (hng : firstKeyword NEGATIVE_KEYWORDS (strLower content) = some kw)
    (hcount : (((st.negative_behavior person_id ++ [(now, kw)]).filter
        (fun e => now - e.1 < cfg.harassment_window)).length : Int) ≥
        cfg.harassment_threshold) :
    (favExecute cfg st db person_id content combined now today).action =
      .add cfg.harassment_delta "negative" ∧
    (favExecute cfg st db person_id content combined now today).state.negative_tracker
      person_id = now ∧
    (favExecute cfg st db person_id content combined now today).db =
      (add_favorability db person_id cfg.harassment_delta "negative" now).2 := by
  simp [favExecute, severeBranch, mildBranch, negativeBranch, hc, hnt, hr,
    hsv, hml, hng, updateFn]
  simp only [List.filter_append, List.length_append, ge_iff_le, Nat.cast_add] at hcount
  rw [if_pos hcount]
  simp [updateFn]

/-- Witness for C5 (amended): third in-window hit escalates while the
negative cooldown from the previous hit is still active. -/
theorem claim5_escalation_witness :
    let cfg : FavConfig := { harassment_delta := -25 }
    let st : Trackers := { initTrackers with
      negative_behavior := updateFn initTrackers.negative_behavior "u"
        [(1000, "垃圾"), (1010, "垃圾")],
      negative_tracker := updateFn initTrackers.negative_tracker "u" 1010 }
    (favExecute cfg st dbEmpty "u" "垃圾" "" 1020 "d").action =
      .add (-25) "negative" ∧
    (favExecute cfg st dbEmpty "u" "垃圾" "" 1020 "d").state.negative_tracker "u" =
      1020 ∧
    (favExecute cfg st dbEmpty "u" "垃圾" "" 1020 "d").db =
      (add_favorability dbEmpty "u" (-25) "negative" 1020).2 := by
  intro cfg st
  exact claim5_escalation cfg st dbEmpty "u" "垃圾" "" "d" "垃圾" 1020
    (by decide) (by decide) rfl (by decide) (by decide) (by decide) (by decide)

/-- Claim C6: when an ordinary-negative keyword matches and a softening
marker co-occurs in the same sanitized text (no escalation, cooldown
elapsed), the applied delta is `min(-1, int(negative_delta / 2))` —
half the configured negative delta truncated toward zero but forced to
stay at least as negative as -1 — so its magnitude is never below 1
whatever the configured `negative_delta`. -/
theorem claim6_softened_delta (cfg : FavConfig) (st : Trackers) (db : DB)
    (person_id content combined today kw : String) (now : Int)
    (hc : content ≠ "")
    (hnt : (cfg.skip_penalty_when_not_talking &&
      anyKeyword NOT_TALKING_TO_ME_KEYWORDS (strLower combined)) = false)
    (hr : reasoningBranch cfg st db person_id (strLower combined) now = none)
    (hsv : firstKeyword SEVERE_KEYWORDS (strLower content) = none)
    (hml : firstKeyword MILD_NEGATIVE_KEYWORDS (strLower content) = none)
    (hng : firstKeyword NEGATIVE_KEYWORDS (strLower content) = some kw)
    (hsoft : anyKeyword SOFTEN_NEGATIVE_KEYWORDS (strLower content) = true)
    (hbelow : (((st.negative_behavior person_id ++ [(now, kw)]).filter
        (fun e => now - e.1 < cfg.harassment_window)).length : Int) <
        cfg.harassment_threshold)
    (hcool : now - st.negative_tracker person_id ≥ cfg.negative_cooldown) :
    (favExecute cfg st db person_id content combined now today).action =
      .add (min (-1) (Int.tdiv cfg.negative_delta 2)) "negative" ∧
    min (-1) (Int.tdiv cfg.negative_delta 2) ≤ -1 ∧
    (favExecute cfg st db person_id content combined now today).db =
      (add_favorability db person_id (min (-1) (Int.tdiv cfg.negative_delta 2))
        "negative" now).2 := by
  simp [favExecute, severeBranch, mildBranch, negativeBranch, hc, hnt, hr,
    hsv, hml, hng, hsoft, updateFn]
  simp only [List.filter_append, List.length_append, ge_iff_le, Nat.cast_add,
    not_le] at hbelow
  rw [if_neg (by omega)]
  rw [if_neg (by omega)]
  simp [updateFn]

/-- Witness for C6: "抱歉但你是垃圾" carries the negative keyword 垃圾 and
the softening marker 抱歉; the applied delta is min(-1, tdiv(-5, 2)) = -2. -/
theorem claim6_softened_delta_witness :
    (favExecute defaultCfg initTrackers dbEmpty "u" "抱歉但你是垃圾" "" 1000 "d").action =
      .add (min (-1) (Int.tdiv defaultCfg.negative_delta 2)) "negative" ∧
    min (-1) (Int.tdiv defaultCfg.negative_delta 2) ≤ -1 ∧
    (favExecute defaultCfg initTrackers dbEmpty "u" "抱歉但你是垃圾" "" 1000 "d").db =
      (add_favorability dbEmpty "u"
        (min (-1) (Int.tdiv defaultCfg.negative_delta 2)) "negative" 1000).2 :=
  claim6_softened_delta defaultCfg initTrackers dbEmpty "u" "抱歉但你是垃圾" "" "d"
    "垃圾" 1000 (by decide) (by decide) rfl (by decide) (by decide) (by decide)
    (by decide) (by decide) (by decide)

/-- Claim C7: `NormalInteraction` gains stop once the per-day counter
reached `daily_normal_limit` for the current date and resume when the
stored date differs from the current date (counter reset); the
normal-interaction cooldown timestamp is not updated when the daily cap
(or the cooldown itself) is the blocking reason, and it is updated
exactly when the gain succeeds. -/
theorem claim7_daily_cap (cfg : FavConfig) (st : Trackers) (db : DB)
    (person_id content combined today : String) (now : Int)
    (hc : content ≠ "")
    (hnt : (cfg.skip_penalty_when_not_talking &&
      anyKeyword NOT_TALKING_TO_ME_KEYWORDS (strLower combined)) = false)
    (hr : reasoningBranch cfg st db person_id (strLower combined) now = none)
    (hsv : firstKeyword SEVERE_KEYWORDS (strLower content) = none)
    (hml : firstKeyword MILD_NEGATIVE_KEYWORDS (strLower content) = none)
    (hng : firstKeyword NEGATIVE_KEYWORDS (strLower content) = none)
    (haf : firstKeyword AFFECTIONATE_KEYWORDS (strLower content) = none)
    (hpo : firstKeyword POSITIVE_KEYWORDS (strLower content) = none)
    (hlen : lenNoSpace content ≥ cfg.min_normal_len) :
    ((now - st.normal_tracker person_id < cfg.normal_cooldown →
      favExecute cfg st db person_id content combined now today = ⟨.noop, st, db⟩) ∧
    (∀ c : Int, st.daily person_id = some (today, c) → c ≥ cfg.daily_limit →
      now - st.normal_tracker person_id ≥ cfg.normal_cooldown →
      (favExecute cfg st db person_id content combined now today).action = .noop ∧
      (favExecute cfg st db person_id content combined now today).db = db ∧
      (favExecute cfg st db person_id content combined now today).state.normal_tracker
        person_id = st.normal_tracker person_id)) ∧
    ((∀ c : Int, st.daily person_id = some (today, c) → c < cfg.daily_limit →
      now - st.normal_tracker person_id ≥ cfg.normal_cooldown →
      (favExecute cfg st db person_id content combined now today).action =
        .add cfg.normal_delta "neutral" ∧
      (favExecute cfg st db person_id content combined now today).state.normal_tracker
        person_id = now ∧
      (favExecute cfg st db person_id content combined now today).state.daily
        person_id = some (today, c + cfg.normal_delta) ∧
      (favExecute cfg st db person_id content combined now today).db =
        (add_favorability db person_id cfg.normal_delta "neutral" now).2) ∧
    (∀ d : String, ∀ c : Int, st.daily person_id = some (d, c) → d ≠ today →
      0 < cfg.daily_limit →
      now - st.normal_tracker person_id ≥ cfg.normal_cooldown →
      (favExecute cfg st db person_id content combined now today).action =
        .add cfg.normal_delta "neutral" ∧
      (favExecute cfg st db person_id content combined now today).state.daily
        person_id = some (today, 0 + cfg.normal_delta) ∧
      (favExecute cfg st db person_id content combined now today).state.normal_tracker
        person_id = now)) := by
  have hred : favExecute cfg st db person_id content combined now today =
      normalBranch cfg st db person_id (lenNoSpace content) now today := by
    simp [favExecute, severeBranch, mildBranch, negativeBranch,
      affectionateBranch, positiveBranch, hc, hnt, hr, hsv, hml, hng, haf, hpo]
  refine ⟨⟨?_, ?_⟩, ?_, ?_⟩
  · intro hcool
    rw [hred]
    simp only [normalBranch]
    rw [if_pos hlen, if_pos hcool]
  · intro c hdy hcap hcool
    rw [hred]
    simp only [normalBranch]
    rw [if_pos hlen, if_neg (by omega)]
    simp [hdy, hcap, updateFn]
  · intro c hdy hcap hcool
    rw [hred]
    simp only [normalBranch]
    rw [if_pos hlen, if_neg (by omega)]
    simp [hdy, updateFn, (show ¬(cfg.daily_limit ≤ c) by omega)]
  · intro d c hdy hd hpos hcool
    rw [hred]
    simp only [normalBranch]
    rw [if_pos hlen, if_neg (by omega)]
    simp [hdy, hd, updateFn, (show ¬(cfg.daily_limit ≤ 0) by omega)]

/-- Witness for C7: neutral message of length 7, counter already at the
daily limit for today — no mutation and the cooldown timestamp is kept. -/
theorem claim7_daily_cap_witness :
    let st : Trackers := { initTrackers with
      daily := updateFn initTrackers.daily "u" (some ("d", 10)) }
    (favExecute defaultCfg st dbEmpty "u" "今天天气真好呀" "" 1000 "d").action =
      .noop ∧
    (favExecute defaultCfg st dbEmpty "u" "今天天气真好呀" "" 1000 "d").db = dbEmpty ∧
    (favExecute defaultCfg st dbEmpty "u" "今天天气真好呀" "" 1000 "d").state.normal_tracker
      "u" = st.normal_tracker "u" := by
  intro st
  exact (claim7_daily_cap defaultCfg st dbEmpty "u" "今天天气真好呀" "" "d" 1000
    (by decide) (by decide) rfl (by decide) (by decide) (by decide) (by decide)
    (by decide) (by decide)).1.2 10 (by decide) (by decide) (by decide)

/-- Claim C10 (implicit): with reasoning detection enabled, no negative
behavior label matched, a positive reasoning tier matched and the
positive cooldown elapsed, the applied delta is
`reasoning_positive_delta + tier_bonus - 1` — with the default
configuration +2 for the high tier and +1 for the mid and low tiers —
and the interaction is counted as positive (the record's
`positive_interactions` counter is incremented). -/
theorem claim10_reasoning_positive (cfg : FavConfig) (st : Trackers) (db : DB)
    (person_id content combined today tier : String) (now : Int)
    (hc : content ≠ "")
    (hnt : (cfg.skip_penalty_when_not_talking &&
      anyKeyword NOT_TALKING_TO_ME_KEYWORDS (strLower combined)) = false)
    (hen : cfg.reasoning_detection_enabled = true)
    (hne : stripNonempty (strLower combined) = true)
    (hbeh : firstLabel REASONING_BEHAVIOR_LABELS (strLower combined) = none)
    (htier : firstLabel REASONING_POSITIVE_LABELS (strLower combined) = some tier)
    (hcool : now - st.positive_tracker person_id ≥ cfg.positive_cooldown) :
    (favExecute cfg st db person_id content combined now today).action =
      .add (cfg.reasoning_positive_delta +
        (if tier = "high" then cfg.reasoning_positive_bonus_high
         else if tier = "mid" then cfg.reasoning_positive_bonus_mid
         else if tier = "low" then cfg.reasoning_positive_bonus_low
         else cfg.reasoning_positive_bonus_mid) - 1) "positive" ∧
    (favExecute cfg st db person_id content combined now today).state.positive_tracker
      person_id = now ∧
    (favExecute cfg st db person_id content combined now today).db =
      (add_favorability db person_id
        (cfg.reasoning_positive_delta +
          (if tier = "high" then cfg.reasoning_positive_bonus_high
           else if tier = "mid" then cfg.reasoning_positive_bonus_mid
           else if tier = "low" then cfg.reasoning_positive_bonus_low
           else cfg.reasoning_positive_bonus_mid) - 1) "positive" now).2 ∧
    (∀ r₀ : FavRecord, db.store person_id = some r₀ → db.get_fails = false →
      db.save_fails = false →
      ((favExecute cfg st db person_id content combined now today).db.store
        person_id).map FavRecord.positive_interactions =
        some (r₀.positive_interactions + 1)) ∧
    defaultCfg.reasoning_positive_delta + defaultCfg.reasoning_positive_bonus_high - 1 = 2 ∧
    defaultCfg.reasoning_positive_delta + defaultCfg.reasoning_positive_bonus_mid - 1 = 1 ∧
    defaultCfg.reasoning_positive_delta + defaultCfg.reasoning_positive_bonus_low - 1 = 1 := by
  have hmain : favExecute cfg st db person_id content combined now today =
      ⟨.add (cfg.reasoning_positive_delta +
         (if tier = "high" then cfg.reasoning_positive_bonus_high
          else if tier = "mid" then cfg.reasoning_positive_bonus_mid
          else if tier = "low" then cfg.reasoning_positive_bonus_low
          else cfg.reasoning_positive_bonus_mid) - 1) "positive",
       { st with positive_tracker := updateFn st.positive_tracker person_id now },
       (add_favorability db person_id
         (cfg.reasoning_positive_delta +
           (if tier = "high" then cfg.reasoning_positive_bonus_high
            else if tier = "mid" then cfg.reasoning_positive_bonus_mid
            else if tier = "low" then cfg.reasoning_positive_bonus_low
            else cfg.reasoning_positive_bonus_mid) - 1) "positive" now).2⟩ := by
    simp [favExecute, reasoningBranch, hc, hnt, hen, hne, hbeh, htier, hcool]
  refine ⟨by rw [hmain], by rw [hmain]; simp [updateFn], by rw [hmain], ?_,
    by decide, by decide, by decide⟩
  intro r₀ h₀ hg hs
  rw [hmain]
  simp [add_favorability, h₀, hg, hs, DB.put, updateFn]

/-- Witness for C10: reasoning "用户很信任我" hits the high tier; with the
default bonuses the applied delta is +2 and the positive counter of the
existing record goes from 0 to 1. -/
theorem claim10_reasoning_positive_witness :
    let cfg : FavConfig := { reasoning_detection_enabled := true }
    let db : DB :=
      ⟨updateFn (fun _ => none) "u" (some ⟨50, "熟人", 1, 0, 0, 0, 0⟩), false, false⟩
    (favExecute cfg initTrackers db "u" "你好呀" "用户很信任我" 1000 "d").action =
      .add 2 "positive" ∧
    ((favExecute cfg initTrackers db "u" "你好呀" "用户很信任我" 1000 "d").db.store
      "u").map FavRecord.positive_interactions = some 1 := by
  intro cfg db
  have h := claim10_reasoning_positive cfg initTrackers db "u" "你好呀" "用户很信任我"
    "d" "high" 1000 (by decide) (by decide) rfl (by decide) (by decide) (by decide)
    (by decide)
  refine ⟨?_, ?_⟩
  · rw [h.1]; decide
  · have h2 := h.2.2.2.1 ⟨50, "熟人", 1, 0, 0, 0, 0⟩ rfl rfl rfl
    rw [h2]; decide

theorem mildBranch_gate (cfg : FavConfig) (st : Trackers) (db : DB)
    (person_id content_lower : String) (now : Int) (r : ExecResult)
    (h : mildBranch cfg st db person_id content_lower now = some r) :
    (∀ δ, r.action = .add δ "positive" →
      now - st.positive_tracker person_id ≥ cfg.positive_cooldown ∧
      r.state.positive_tracker person_id = now) ∧
    (∀ δ, r.action = .add δ "negative" →
      now - st.negative_tracker person_id ≥ cfg.negative_cooldown ∨
      δ = cfg.harassment_delta) ∧
    (r.action = .noop → r.db = db) := by
  unfold mildBranch at h
  split at h
  · exact absurd h (by simp)
  · split at h
    · injection h with h
      subst h
      refine ⟨?_, ?_, ?_⟩ <;> intro
      · intro hδ; simp at hδ
      · intro hδ; simp at hδ
      · rfl
    · injection h with h
      subst h
      refine ⟨?_, ?_, ?_⟩
      · intro δ hδ; simp at hδ
      · intro δ hδ
        simp only [ScoreAction.add.injEq] at hδ
        left
        omega
      · intro hδ; simp at hδ

theorem severeBranch_gate (cfg : FavConfig) (st : Trackers) (db : DB)
    (person_id content_lower : String) (now : Int) (r : ExecResult)
    (h : severeBranch cfg st db person_id content_lower now = some r) :
    (∀ δ, r.action = .add δ "positive" →
      now - st.positive_tracker person_id ≥ cfg.positive_cooldown ∧
      r.state.positive_tracker person_id = now) ∧
    (∀ δ, r.action = .add δ "negative" →
      now - st.negative_tracker person_id ≥ cfg.negative_cooldown ∨
      δ = cfg.harassment_delta) ∧
    (r.action = .noop → r.db = db) := by
  unfold severeBranch at h
  split at h
  · exact absurd h (by simp)
  · dsimp only at h
    split at h
    · injection h with h
      subst h
      refine ⟨?_, ?_, ?_⟩
      · intro δ hδ; simp at hδ
      · intro δ hδ
        simp only [ScoreAction.add.injEq] at hδ
        exact Or.inr hδ.1.symm
      · intro hδ; simp at hδ
    · split at h
      · injection h with h
        subst h
        refine ⟨?_, ?_, ?_⟩
        · intro δ hδ; simp at hδ
        · intro δ hδ; simp at hδ
        · intro _; rfl
      · injection h with h
        subst h
        refine ⟨?_, ?_, ?_⟩
        · intro δ hδ; simp at hδ
        · intro δ hδ; left; omega
        · intro hδ; simp at hδ

theorem negativeBranch_gate (cfg : FavConfig) (st : Trackers) (db : DB)
    (person_id content_lower : String) (now : Int) (r : ExecResult)
    (h : negativeBranch cfg st db person_id content_lower now = some r) :
    (∀ δ, r.action = .add δ "positive" →
      now - st.positive_tracker person_id ≥ cfg.positive_cooldown ∧
      r.state.positive_tracker person_id = now) ∧
    (∀ δ, r.action = .add δ "negative" →
      now - st.negative_tracker person_id ≥ cfg.negative_cooldown ∨
      δ = cfg.harassment_delta) ∧
    (r.action = .noop → r.db = db) := by
  unfold negativeBranch at h
  split at h
  · exact absurd h (by simp)
  · dsimp only at h
    split at h
    · injection h with h
      subst h
      refine ⟨?_, ?_, ?_⟩
      · intro δ hδ; simp at hδ
      · intro δ hδ
        simp only [ScoreAction.add.injEq] at hδ
        exact Or.inr hδ.1.symm
      · intro hδ; simp at hδ
    · split at h
      · injection h with h
        subst h
        refine ⟨?_, ?_, ?_⟩
        · intro δ hδ; simp at hδ
        · intro δ hδ; simp at hδ
        · intro _; rfl
      · injection h with h
        subst h
        refine ⟨?_, ?_, ?_⟩
        · intro δ hδ; simp at hδ
        · intro δ hδ; left; omega
        · intro hδ; simp at hδ

theorem reasoningBranch_gate (cfg : FavConfig) (st : Trackers) (db : DB)
    (person_id combined : String) (now : Int) (r : ExecResult)
    (h : reasoningBranch cfg st db person_id combined now = some r) :
    (∀ δ, r.action = .add δ "positive" →
      now - st.positive_tracker person_id ≥ cfg.positive_cooldown ∧
      r.state.positive_tracker person_id = now) ∧
    (∀ δ, r.action = .add δ "negative" →
      now - st.negative_tracker person_id ≥ cfg.negative_cooldown ∨
      δ = cfg.harassment_delta) ∧
    (r.action = .noop → r.db = db) := by
  unfold reasoningBranch at h
  split at h
  · dsimp only at h
    split at h
    · -- behavior label found
      split at h
      · -- hedge: noop
        injection h with h
        subst h
        refine ⟨?_, ?_, ?_⟩
        · intro δ hδ; simp at hδ
        · intro δ hδ; simp at hδ
        · intro _; rfl
      · split at h
        · -- negative cooldown elapsed; the delta depends on the label,
          -- and a zero delta yields a noop
          split at h <;> split at h <;>
            (injection h with h; subst h;
             refine ⟨fun δ hδ => by simp at hδ, fun δ hδ => ?_, fun hδ => ?_⟩) <;>
            first
              | (left; omega)
              | simp_all
        · -- cooldown active: falls to the positive scan
          split at h
          · split at h
            · -- positive add
              injection h with h
              subst h
              refine ⟨?_, ?_, ?_⟩
              · intro δ hδ
                refine ⟨by omega, by simp [updateFn]⟩
              · intro δ hδ; simp at hδ
              · intro hδ; simp at hδ
            · exact absurd h (by simp)
          · exact absurd h (by simp)
    · -- no behavior label: positive scan
      split at h
      · split at h
        · injection h with h
          subst h
          refine ⟨?_, ?_, ?_⟩
          · intro δ hδ
            refine ⟨by omega, by simp [updateFn]⟩
          · intro δ hδ; simp at hδ
          · intro hδ; simp at hδ
        · exact absurd h (by simp)
      · exact absurd h (by simp)
  · exact absurd h (by simp)

theorem affectionateBranch_gate (cfg : FavConfig) (st : Trackers) (db : DB)
    (person_id content_lower : String) (len now : Int) (r : ExecResult)
    (h : affectionateBranch cfg st db person_id content_lower len now = some r) :
    (∀ δ, r.action = .add δ "positive" →
      now - st.positive_tracker person_id ≥ cfg.positive_cooldown ∧
      r.state.positive_tracker person_id = now) ∧
    (∀ δ, r.action = .add δ "negative" →
      now - st.negative_tracker person_id ≥ cfg.negative_cooldown ∨
      δ = cfg.harassment_delta) ∧
    (r.action = .noop → r.db = db) := by
  unfold affectionateBranch at h
  split at h
  · exact absurd h (by simp)
  · split at h
    · injection h with h
      subst h
      exact ⟨fun δ hδ => by simp at hδ, fun δ hδ => by simp at hδ, fun _ => rfl⟩
    · split at h
      · injection h with h
        subst h
        exact ⟨fun δ hδ => by simp at hδ, fun δ hδ => by simp at hδ, fun _ => rfl⟩
      · injection h with h
        subst h
        refine ⟨?_, ?_, ?_⟩
        · intro δ hδ
          exact ⟨by omega, by simp [updateFn]⟩
        · intro δ hδ; simp at hδ
        · intro hδ; simp at hδ

theorem positiveBranch_gate (cfg : FavConfig) (st : Trackers) (db : DB)
    (person_id content_lower : String) (len now : Int) (r : ExecResult)
    (h : positiveBranch cfg st db person_id content_lower len now = some r) :
    (∀ δ, r.action = .add δ "positive" →
      now - st.positive_tracker person_id ≥ cfg.positive_cooldown ∧
      r.state.positive_tracker person_id = now) ∧
    (∀ δ, r.action = .add δ "negative" →
      now - st.negative_tracker person_id ≥ cfg.negative_cooldown ∨
      δ = cfg.harassment_delta) ∧
    (r.action = .noop → r.db = db) := by
  unfold positiveBranch at h
  split at h
  · exact absurd h (by simp)
  · split at h
    · injection h with h
      subst h
      exact ⟨fun δ hδ => by simp at hδ, fun δ hδ => by simp at hδ, fun _ => rfl⟩
    · split at h
      · injection h with h
        subst h
        exact ⟨fun δ hδ => by simp at hδ, fun δ hδ => by simp at hδ, fun _ => rfl⟩
      · dsimp only at h
        injection h with h
        subst h
        refine ⟨?_, ?_, ?_⟩
        · intro δ hδ
          exact ⟨by omega, by simp [updateFn]⟩
        · intro δ hδ; simp at hδ
        · intro hδ; simp at hδ

theorem notTalkingBranch_gate (cfg : FavConfig) (st : Trackers) (db : DB)
    (person_id combined : String) (now : Int) (r : ExecResult)
    (h : notTalkingBranch cfg st db person_id combined now = r) :
    (∀ δ, r.action = .add δ "positive" →
      now - st.positive_tracker person_id ≥ cfg.positive_cooldown ∧
      r.state.positive_tracker person_id = now) ∧
    (∀ δ, r.action = .add δ "negative" →
      now - st.negative_tracker person_id ≥ cfg.negative_cooldown ∨
      δ = cfg.harassment_delta) ∧
    (r.action = .noop → r.db = db) := by
  unfold notTalkingBranch at h
  dsimp only at h
  split at h
  · split at h
    · subst h
      refine ⟨?_, ?_, ?_⟩
      · intro δ hδ; simp at hδ
      · intro δ hδ; left; omega
      · intro hδ; simp at hδ
    · subst h
      exact ⟨fun δ hδ => by simp at hδ, fun δ hδ => by simp at hδ, fun _ => rfl⟩
  · split at h <;> subst h <;>
      exact ⟨fun δ hδ => by simp at hδ, fun δ hδ => by simp at hδ, fun _ => rfl⟩

theorem normalBranch_gate (cfg : FavConfig) (st : Trackers) (db : DB)
    (person_id : String) (len now : Int) (today : String) (r : ExecResult)
    (h : normalBranch cfg st db person_id len now today = r) :
    (∀ δ, r.action = .add δ "positive" →
      now - st.positive_tracker person_id ≥ cfg.positive_cooldown ∧
      r.state.positive_tracker person_id = now) ∧
    (∀ δ, r.action = .add δ "negative" →
      now - st.negative_tracker person_id ≥ cfg.negative_cooldown ∨
      δ = cfg.harassment_delta) ∧
    (r.action = .noop → r.db = db) := by
  unfold normalBranch at h
  split at h
  · split at h
    · subst h
      exact ⟨fun δ hδ => by simp at hδ, fun δ hδ => by simp at hδ, fun _ => rfl⟩
    · dsimp only at h
      split at h <;> split at h <;> subst h <;>
        refine ⟨fun δ hδ => by simp at hδ, fun δ hδ => by simp at hδ, fun hδ => ?_⟩ <;>
        first
          | rfl
          | simp_all
  · subst h
    exact ⟨fun δ hδ => by simp at hδ, fun δ hδ => by simp at hδ, fun _ => rfl⟩

/-- Claim C4 (amended): within the AFTER_LLM handler every positive-tier
path (reasoning-positive, affectionate, positive keyword) is gated by
the one shared positive cooldown timestamp — an applied positive delta
implies the cooldown had elapsed, and it refreshes the shared timestamp,
so two positive-family hits within `positive_cooldown` seconds mutate
the score exactly once — and every negative-tier path (severe, mild,
ordinary, reasoning-negative) is gated by the one shared negative
cooldown timestamp, except that a harassment escalation may fire during
the cooldown; a suppressed event (`noop`) performs no store mutation at
all.  (The ON_MESSAGE handler, by contrast, applies its penalties with
no cooldown gating whatsoever — see the counterexample.) -/
theorem claim4_shared_cooldowns (cfg : FavConfig) (st : Trackers) (db : DB)
    (person_id content combined today : String) (now : Int) :
    (∀ δ, (favExecute cfg st db person_id content combined now today).action =
        .add δ "positive" →
      now - st.positive_tracker person_id ≥ cfg.positive_cooldown ∧
      (favExecute cfg st db person_id content combined now today).state.positive_tracker
        person_id = now) ∧
    (∀ δ, (favExecute cfg st db person_id content combined now today).action =
        .add δ "negative" →
      now - st.negative_tracker person_id ≥ cfg.negative_cooldown ∨
      δ = cfg.harassment_delta) ∧
    ((favExecute cfg st db person_id content combined now today).action = .noop →
      (favExecute cfg st db person_id content combined now today).db = db) := by
  generalize hE : favExecute cfg st db person_id content combined now today = r
  unfold favExecute at hE
  split at hE
  · subst hE
    exact ⟨fun δ hδ => by simp at hδ, fun δ hδ => by simp at hδ, fun _ => rfl⟩
  · dsimp only at hE
    split at hE
    · exact notTalkingBranch_gate cfg st db person_id (strLower combined) now r hE
    · cases hrb : reasoningBranch cfg st db person_id (strLower combined) now with
      | some r₁ =>
          rw [hrb] at hE
          dsimp only at hE
          subst hE
          exact reasoningBranch_gate cfg st db person_id (strLower combined) now r₁ hrb
      | none =>
      rw [hrb] at hE
      dsimp only at hE
      cases hsv : severeBranch cfg st db person_id (strLower content) now with
      | some r₂ =>
          rw [hsv] at hE
          dsimp only at hE
          subst hE
          exact severeBranch_gate cfg st db person_id (strLower content) now r₂ hsv
      | none =>
      rw [hsv] at hE
      dsimp only at hE
      cases hml : mildBranch cfg st db person_id (strLower content) now with
      | some r₃ =>
          rw [hml] at hE
          dsimp only at hE
          subst hE
          exact mildBranch_gate cfg st db person_id (strLower content) now r₃ hml
      | none =>
      rw [hml] at hE
      dsimp only at hE
      cases hng : negativeBranch cfg st db person_id (strLower content) now with
      | some r₄ =>
          rw [hng] at hE
          dsimp only at hE
          subst hE
          exact negativeBranch_gate cfg st db person_id (strLower content) now r₄ hng
      | none =>
      rw [hng] at hE
      dsimp only at hE
      cases haf : affectionateBranch cfg st db person_id (strLower content)
          (lenNoSpace content) now with
      | some r₅ =>
          rw [haf] at hE
          dsimp only at hE
          subst hE
          exact affectionateBranch_gate cfg st db person_id (strLower content)
            (lenNoSpace content) now r₅ haf
      | none =>
      rw [haf] at hE
      dsimp only at hE
      cases hpo : positiveBranch cfg st db person_id (strLower content)
          (lenNoSpace content) now with
      | some r₆ =>
          rw [hpo] at hE
          dsimp only at hE
          subst hE
          exact positiveBranch_gate cfg st db person_id (strLower content)
            (lenNoSpace content) now r₆ hpo
      | none =>
      rw [hpo] at hE
      dsimp only at hE
      exact normalBranch_gate cfg st db person_id (lenNoSpace content) now today r hE

/-- Counterexample to C4: (1) the ON_MESSAGE handler applies two severe
penalties 10 s apart — far inside `negative_cooldown` — mutating the
score twice (50 → 35 → 20): it consults no cooldown timestamp at all;
(2) even in the AFTER_LLM handler a hit whose sliding-window count
reaches the harassment threshold mutates the store while the negative
cooldown is still active (here 10 s after the last penalty), so a hit
under cooldown is not always fully suppressed. -/
theorem claim4_counterexample :
    let cfg : FavConfig := { severe_delta := -15, harassment_delta := -25 }
    let r1 := sentimentExecute cfg initTrackers dbEmpty "u" "去死" 1000
    let r2 := sentimentExecute cfg r1.state r1.db "u" "去死" 1010
    let st : Trackers := { initTrackers with
      negative_behavior := updateFn initTrackers.negative_behavior "u"
        [(900, "a"), (950, "b")],
      negative_tracker := updateFn initTrackers.negative_tracker "u" 990 }
    let r3 := favExecute cfg st dbEmpty "u" "垃圾" "" 1000 "d"
    ((1010 : Int) - 1000 < cfg.negative_cooldown ∧
     r1.action = .add (-15) "negative" ∧
     r2.action = .add (-15) "negative" ∧
     get_favorability r1.db "u" = 35 ∧
     get_favorability r2.db "u" = 20) ∧
    ((1000 : Int) - 990 < cfg.negative_cooldown ∧
     r3.action = .add (-25) "negative" ∧
     get_favorability r3.db "u" = 25) := by
  decide

/-- Witness for C4 (amended): a first positive-keyword event applies +1
and stamps the shared positive timestamp; the gate theorem instantiated
at a second event 10 s later (inside the 120 s cooldown) shows any
applied positive delta would contradict the cooldown, i.e. the second
event cannot mutate positively. -/
theorem claim4_shared_cooldowns_witness :
    let st1 : Trackers := { initTrackers with
      positive_tracker := updateFn initTrackers.positive_tracker "u" 1000 }
    ((favExecute defaultCfg st1 dbEmpty "u" "谢谢你啦" "" 1010 "d").action =
        .add 1 "positive" → False) ∧
    ((favExecute defaultCfg initTrackers dbEmpty "u" "谢谢你啦" "" 1000 "d").action =
        .add 1 "positive" →
      (1000 : Int) - initTrackers.positive_tracker "u" ≥ defaultCfg.positive_cooldown ∧
      (favExecute defaultCfg initTrackers dbEmpty "u" "谢谢你啦" "" 1000 "d").state.positive_tracker
        "u" = 1000) := by
  intro st1
  refine ⟨?_, ?_⟩
  · intro hact
    have h := (claim4_shared_cooldowns defaultCfg st1 dbEmpty "u" "谢谢你啦" "" "d"
      1010).1 1 hact
    have hc : (1010 : Int) - st1.positive_tracker "u" ≥ defaultCfg.positive_cooldown :=
      h.1
    revert hc
    decide
  · exact (claim4_shared_cooldowns defaultCfg initTrackers dbEmpty "u" "谢谢你啦" ""
      "d" 1000).1 1
